import Mathlib

/- Shallow embedding of the Material Impact and Recommendation Engine found in
   src/ecofabric-vercel/src/materialcomparator.jsx.  JavaScript numbers are
   modelled as exact rationals; a composition object is modelled as an
   association list from material names to fractions (JavaScript objects have
   unique keys, and Object.entries iterates the entries in insertion order).
   A JavaScript comparison such as composition.cotton < 0.5 is false when the
   key is absent (undefined compares false), which the embedding renders by
   matching on the optional lookup result. -/

namespace ThreadLife

/-- One row of the MATERIAL_DATA table: co2 (kg CO2e per kg), water
(liters per kg) and the durability weight mat_score. -/
structure MaterialInfo where
  co2 : ℚ
  water : ℚ
  mat_score : ℚ
deriving DecidableEq

/-- The static material reference table of materialcomparator.jsx
(lines 7-64), keyed by canonical material name. -/
def MATERIAL_DATA : List (String × MaterialInfo) :=
  [("cotton", ⟨15, 2700, 1⟩),
   ("recycled_cotton", ⟨8, 500, 1⟩),
   ("polyester", ⟨10, 25, 9/20⟩),
   ("recycled_polyester", ⟨6, 20, 1/2⟩),
   ("wool", ⟨25, 1500, 17/20⟩),
   ("linen", ⟨8, 650, 4/5⟩),
   ("elastane", ⟨20, 100, 3/5⟩),
   ("nylon", ⟨15, 30, 1/2⟩)]

/-- JavaScript property access MATERIAL_DATA[material]: some row for a known
material name, none otherwise. -/
def materialLookup (material : String) : Option MaterialInfo :=
  MATERIAL_DATA.lookup material

/-- A composition maps material names to fractions.  Embedded as an
association list with (in the reachable states) unique keys. -/
abbrev Composition := List (String × ℚ)

/-- The CATEGORY_MULTIPLIERS table (source lines 67-75), including its
explicit entry for the key named other. -/
def CATEGORY_MULTIPLIERS : List (String × ℚ) :=
  [("tshirt", 1),
   ("sweater", 23/20),
   ("jacket", 23/20),
   ("dress", 9/10),
   ("trousers", 19/20),
   ("jeans", 11/10),
   ("other", 1)]

/-- Category multiplier resolution as in predictLifespan (source line 99):
CATEGORY_MULTIPLIERS[category] || CATEGORY_MULTIPLIERS.other.  The fallback
value is the table entry for the key named other, which is 1; JavaScript ||
also falls back when the stored multiplier is the falsy number 0, which
never happens in the fixed table. -/
def categoryMult (category : String) : ℚ :=
  match CATEGORY_MULTIPLIERS.lookup category with
  | some m => if m = 0 then 1 else m
  | none => 1

/-- One iteration of the Object.entries(composition).forEach loop of
calculateMaterialScore: the accumulator is the pair (score, totalPct); an
entry is used only when its fraction is positive and its material is known. -/
def scoreStep (acc : ℚ × ℚ) (e : String × ℚ) : ℚ × ℚ :=
  if e.2 > 0 then
    match materialLookup e.1 with
    | some d => (acc.1 + (d.mat_score - 3/5) * e.2, acc.2 + e.2)
    | none => acc
  else acc

/-- calculateMaterialScore (source lines 77-95): accumulate weighted
deviations from the 0.65 baseline, renormalize by the used fraction total
when it is positive and not 1, then clamp to [0.4, 1.2]. -/
def calculateMaterialScore (composition : Composition) : ℚ :=
  let p := composition.foldl scoreStep (13/20, 0)
  let score := p.1
  let totalPct := p.2
  let score2 :=
    if totalPct > 0 ∧ totalPct ≠ 1 then 13/20 + (score - 13/20) * (1 / totalPct)
    else score
  max (2/5) (min (6/5) score2)

/-- predictLifespan (source lines 97-102). -/
def predictLifespan (composition : Composition) (category : String) : ℚ :=
  let matScore := calculateMaterialScore composition
  let categoryMultiplier := categoryMult category
  let baseLifespan := 30 + (matScore - 13/20) * 60
  baseLifespan * categoryMultiplier

/-- The pair returned by calculateImpact. -/
structure Impact where
  co2 : ℚ
  water : ℚ
deriving DecidableEq

/-- One iteration of the loop of calculateImpact: an entry contributes only
when its fraction is positive and its material is known. -/
def impactStep (garmentMassKg : ℚ) (acc : Impact) (e : String × ℚ) : Impact :=
  if e.2 > 0 then
    match materialLookup e.1 with
    | some d => ⟨acc.co2 + d.co2 * e.2 * garmentMassKg,
                 acc.water + d.water * e.2 * garmentMassKg⟩
    | none => acc
  else acc

/-- calculateImpact (source lines 104-117). -/
def calculateImpact (composition : Composition) (garmentMassKg : ℚ) : Impact :=
  composition.foldl (impactStep garmentMassKg) ⟨0, 0⟩

/-- JavaScript object update: the spread expression with one overriding key,
as in the new-composition literals of the suggestions block.  An existing
key keeps its position and gets the new value; a fresh key is appended. -/
def setKey (c : Composition) (k : String) (v : ℚ) : Composition :=
  if (c.map Prod.fst).contains k then
    c.map (fun e => if e.1 = k then (k, v) else e)
  else c ++ [(k, v)]

/-- A suggestion record as pushed by the suggestions block (source lines
180-187 and the three analogous pushes): exactly the six fields of the
object literal.  The water delta shown in the UI is computed from impact at
render time and is not a field of the record. -/
structure Recommendation where
  label : String
  composition : Composition
  lifespan : ℚ
  deltaLifespan : ℚ
  impact : Impact
  deltaCO2 : ℚ
deriving DecidableEq

/-- The key names of the object literal pushed for every heuristic, in
source order (lines 180-187, 197-204, 216-223, 234-241). -/
def recommendationFieldNames : List String :=
  ["label", "composition", "lifespan", "deltaLifespan", "impact", "deltaCO2"]

/-- Heuristic (a), recycled-polyester swap (source lines 172-188).  The
guard baseComposition.polyester > 0.1 is false in JavaScript when the
polyester key is absent.  The new composition overwrites the
recycled_polyester entry with the polyester fraction. -/
def suggestion1 (base : Composition) (category : String)
    (currentLifespan : ℚ) (currentImpact : Impact) : Option Recommendation :=
  match base.lookup "polyester" with
  | some p =>
    if p > 1/10 then
      let newComp := setKey (setKey base "recycled_polyester" p) "polyester" 0
      let newLifespan := predictLifespan newComp category
      let newImpact := calculateImpact newComp (1/4)
      some ⟨"Switch to Recycled Polyester", newComp, newLifespan,
            newLifespan - currentLifespan, newImpact,
            newImpact.co2 - currentImpact.co2⟩
    else none
  | none => none

/-- Heuristic (b), recycled-cotton blend (source lines 190-206), guarded by
baseComposition.cotton > 0.5. -/
def suggestion2 (base : Composition) (category : String)
    (currentLifespan : ℚ) (currentImpact : Impact) : Option Recommendation :=
  match base.lookup "cotton" with
  | some cv =>
    if cv > 1/2 then
      let newComp :=
        setKey (setKey base "recycled_cotton" (cv * (4/5))) "cotton" (cv * (1/5))
      let newLifespan := predictLifespan newComp category
      let newImpact := calculateImpact newComp (1/4)
      some ⟨"Use 80% Recycled Cotton", newComp, newLifespan,
            newLifespan - currentLifespan, newImpact,
            newImpact.co2 - currentImpact.co2⟩
    else none
  | none => none

/-- Heuristic (c), polyester-to-cotton substitution (source lines 208-225),
guarded by baseComposition.polyester > 0.3 && baseComposition.cotton < 0.5.
Both comparisons are false in JavaScript when the key is absent, so a
composition with no cotton entry never triggers this heuristic. -/
def suggestion3 (base : Composition) (category : String)
    (currentLifespan : ℚ) (currentImpact : Impact) : Option Recommendation :=
  match base.lookup "polyester", base.lookup "cotton" with
  | some p, some cv =>
    if p > 3/10 ∧ cv < 1/2 then
      let reduction := min (3/10) p
      let newComp :=
        setKey (setKey base "polyester" (p - reduction)) "cotton" (cv + reduction)
      let newLifespan := predictLifespan newComp category
      let newImpact := calculateImpact newComp (1/4)
      some ⟨"Replace Polyester with Cotton", newComp, newLifespan,
            newLifespan - currentLifespan, newImpact,
            newImpact.co2 - currentImpact.co2⟩
    else none
  | _, _ => none

/-- Heuristic (d), linen blend (source lines 227-244), guarded by the
category being tshirt or dress and baseComposition.polyester > 0.2; the
linen fraction read with || 0 defaults to 0 when absent. -/
def suggestion4 (base : Composition) (category : String)
    (currentLifespan : ℚ) (currentImpact : Impact) : Option Recommendation :=
  if category = "tshirt" ∨ category = "dress" then
    match base.lookup "polyester" with
    | some p =>
      if p > 1/5 then
        let reduction := min (3/10) p
        let newComp := setKey (setKey base "polyester" (p - reduction)) "linen"
          (((base.lookup "linen").getD 0) + reduction)
        let newLifespan := predictLifespan newComp category
        let newImpact := calculateImpact newComp (1/4)
        some ⟨"Add Linen Blend", newComp, newLifespan,
              newLifespan - currentLifespan, newImpact,
              newImpact.co2 - currentImpact.co2⟩
      else none
    | none => none
  else none

/-- The composite ranking score: the sort comparator of source line 246
orders by deltaLifespan - deltaCO2 * 50, descending. -/
def rank (r : Recommendation) : ℚ := r.deltaLifespan - r.deltaCO2 * 50

/-- The improvements array after the four conditional pushes of the
suggestions block, in push order. -/
def improvements (base : Composition) (category : String) : List Recommendation :=
  let currentLifespan := predictLifespan base category
  let currentImpact := calculateImpact base (1/4)
  (suggestion1 base category currentLifespan currentImpact).toList ++
  (suggestion2 base category currentLifespan currentImpact).toList ++
  (suggestion3 base category currentLifespan currentImpact).toList ++
  (suggestion4 base category currentLifespan currentImpact).toList

/-- The suggestions useMemo (source lines 168-247): the improvements array
sorted descending by rank.  Array.prototype.sort is a stable sort, modelled
by insertion sort with the reflexive descending relation. -/
def suggestions (base : Composition) (category : String) : List Recommendation :=
  List.insertionSort (fun a b => rank b ≤ rank a) (improvements base category)

/-- Fraction-weighted sum over the used entries of a composition (positive
fraction, known material), the common shape of the accumulations performed
by calculateMaterialScore and calculateImpact. -/
def usedSum (f : MaterialInfo → ℚ) : Composition → ℚ
  | [] => 0
  | e :: rest =>
    (if e.2 > 0 then
      match materialLookup e.1 with
      | some d => f d * e.2
      | none => 0
    else 0) + usedSum f rest

/-- Weighted deviation from the 0.65 baseline accumulated by the loop of
calculateMaterialScore. -/
def devSum : Composition → ℚ := usedSum (fun d => d.mat_score - 3/5)

/-- Total of the used fractions accumulated by calculateMaterialScore. -/
def pctSum : Composition → ℚ := usedSum (fun _ => 1)

/-- Per-kilogram CO2 total accumulated by the loop of calculateImpact. -/
def co2Sum : Composition → ℚ := usedSum (fun d => d.co2)

/-- Per-kilogram water total accumulated by the loop of calculateImpact. -/
def waterSum : Composition → ℚ := usedSum (fun d => d.water)

/-- Scaling of a composition: every fraction multiplied by the scalar k
(the scale operation of the normalization-invariance property). -/
def scaleComp (c : Composition) (k : ℚ) : Composition :=
  c.map (fun e => (e.1, e.2 * k))

/-- Clamp a fraction to the unit interval. -/
def clamp01 (x : ℚ) : ℚ := max 0 (min 1 x)

/-- Clamp every fraction of a composition to the unit interval. -/
def clampComp (c : Composition) : Composition :=
  c.map (fun e => (e.1, clamp01 e.2))

/-- Sum of the fractions of a composition. -/
def fracSum (c : Composition) : ℚ := (c.map (fun e => e.2)).sum

/-- Modelled from the spec: the repository contains no Composition
Normalizer implementation under src/ (only the specification describes
one), so the normalize operation is taken from the spec's words: every
entry's fraction is clamped to [0,1]; if the sum of fractions is positive
and not within floating tolerance of 1 (tolerance is exact in the rational
model), every fraction is rescaled by 1/sum; if the sum is 0, the
composition is returned unchanged. -/
def normalize (c : Composition) : Composition :=
  let clamped := clampComp c
  let s := fracSum clamped
  if s = 0 then c
  else if s ≠ 1 then clamped.map (fun e => (e.1, e.2 * (1 / s)))
  else clamped

/-- Unfolding a used entry of usedSum. -/
theorem usedSum_cons_used (f : MaterialInfo → ℚ) (e : String × ℚ)
    (rest : Composition) (d : MaterialInfo) (hpos : e.2 > 0)
    (hm : materialLookup e.1 = some d) :
    usedSum f (e :: rest) = f d * e.2 + usedSum f rest := by
  simp [usedSum, hpos, hm]

/-- Unfolding a skipped entry of usedSum (non-positive fraction). -/
theorem usedSum_cons_nonpos (f : MaterialInfo → ℚ) (e : String × ℚ)
    (rest : Composition) (hpos : ¬ e.2 > 0) :
    usedSum f (e :: rest) = usedSum f rest := by
  simp [usedSum, hpos]

/-- Unfolding a skipped entry of usedSum (unknown material). -/
theorem usedSum_cons_unknown (f : MaterialInfo → ℚ) (e : String × ℚ)
    (rest : Composition) (hm : materialLookup e.1 = none) :
    usedSum f (e :: rest) = usedSum f rest := by
  simp [usedSum, hm]

/-- The loop of calculateMaterialScore computes the two accumulator sums. -/
theorem foldl_scoreStep (c : Composition) (x y : ℚ) :
    c.foldl scoreStep (x, y) = (x + devSum c, y + pctSum c) := by
  induction c generalizing x y with
  | nil => simp [devSum, pctSum, usedSum]
  | cons e rest ih =>
    rw [List.foldl_cons]
    by_cases hpos : e.2 > 0
    · cases hm : materialLookup e.1 with
      | some d =>
        rw [show scoreStep (x, y) e = (x + (d.mat_score - 3/5) * e.2, y + e.2) by
              simp [scoreStep, hpos, hm]]
        rw [ih]
        simp only [devSum, pctSum,
          usedSum_cons_used (fun m => m.mat_score - 3/5) e rest d hpos hm,
          usedSum_cons_used (fun _ => (1:ℚ)) e rest d hpos hm, Prod.mk.injEq]
        constructor <;> ring
      | none =>
        rw [show scoreStep (x, y) e = (x, y) by simp [scoreStep, hpos, hm]]
        rw [ih]
        simp only [devSum, pctSum,
          usedSum_cons_unknown (fun m => m.mat_score - 3/5) e rest hm,
          usedSum_cons_unknown (fun _ => (1:ℚ)) e rest hm]
    · rw [show scoreStep (x, y) e = (x, y) by simp [scoreStep, hpos]]
      rw [ih]
      simp only [devSum, pctSum,
        usedSum_cons_nonpos (fun m => m.mat_score - 3/5) e rest hpos,
        usedSum_cons_nonpos (fun _ => (1:ℚ)) e rest hpos]

/-- The used-fraction total is non-negative. -/
theorem pctSum_nonneg (c : Composition) : 0 ≤ pctSum c := by
  simp only [pctSum]
  induction c with
  | nil => simp [usedSum]
  | cons e rest ih =>
    by_cases hpos : e.2 > 0
    · cases hm : materialLookup e.1 with
      | some d =>
        rw [usedSum_cons_used (fun _ => (1:ℚ)) e rest d hpos hm, one_mul]
        linarith
      | none =>
        rw [usedSum_cons_unknown (fun _ => (1:ℚ)) e rest hm]; exact ih
    · rw [usedSum_cons_nonpos (fun _ => (1:ℚ)) e rest hpos]; exact ih

/-- When no entry is used, the accumulated deviation is zero. -/
theorem devSum_eq_zero (c : Composition) : pctSum c = 0 → devSum c = 0 := by
  simp only [pctSum, devSum]
  induction c with
  | nil => intro _; simp [usedSum]
  | cons e rest ih =>
    intro h
    by_cases hpos : e.2 > 0
    · cases hm : materialLookup e.1 with
      | some d =>
        rw [usedSum_cons_used (fun _ => (1:ℚ)) e rest d hpos hm, one_mul] at h
        have h1 : 0 ≤ usedSum (fun _ => (1:ℚ)) rest := by
          have h2 := pctSum_nonneg rest
          simpa [pctSum] using h2
        exfalso; linarith
      | none =>
        rw [usedSum_cons_unknown (fun _ => (1:ℚ)) e rest hm] at h
        rw [usedSum_cons_unknown (fun m => m.mat_score - 3/5) e rest hm]
        exact ih h
    · rw [usedSum_cons_nonpos (fun _ => (1:ℚ)) e rest hpos] at h
      rw [usedSum_cons_nonpos (fun m => m.mat_score - 3/5) e rest hpos]
      exact ih h

/-- The material score as a closed formula: baseline plus the accumulated
deviation divided by the used-fraction total, clamped to [0.4, 1.2]. -/
theorem calculateMaterialScore_eq (c : Composition) :
    calculateMaterialScore c =
      max (2/5) (min (6/5)
        (if 0 < pctSum c then 13/20 + devSum c / pctSum c else 13/20)) := by
  simp only [calculateMaterialScore, foldl_scoreStep, zero_add, add_sub_cancel_left]
  have key : (if pctSum c > 0 ∧ pctSum c ≠ 1
        then 13/20 + devSum c * (1 / pctSum c)
        else 13/20 + devSum c) =
      (if 0 < pctSum c then 13/20 + devSum c / pctSum c else 13/20) := by
    by_cases hpos : 0 < pctSum c
    · by_cases h1 : pctSum c = 1
      · rw [if_neg (by simp [h1]), if_pos hpos, h1, div_one]
      · rw [if_pos ⟨hpos, h1⟩, if_pos hpos, mul_one_div]
    · have hz : pctSum c = 0 := le_antisymm (not_lt.mp hpos) (pctSum_nonneg c)
      rw [if_neg (by simp [hz]), if_neg hpos, devSum_eq_zero c hz, add_zero]
  rw [key]

/-- The loop of calculateImpact computes mass-scaled used sums. -/
theorem foldl_impactStep (c : Composition) (m : ℚ) (a : Impact) :
    c.foldl (impactStep m) a = ⟨a.co2 + co2Sum c * m, a.water + waterSum c * m⟩ := by
  induction c generalizing a with
  | nil => simp [co2Sum, waterSum, usedSum]
  | cons e rest ih =>
    rw [List.foldl_cons]
    by_cases hpos : e.2 > 0
    · cases hm : materialLookup e.1 with
      | some d =>
        rw [show impactStep m a e =
              (⟨a.co2 + d.co2 * e.2 * m, a.water + d.water * e.2 * m⟩ : Impact) by
              simp [impactStep, hpos, hm]]
        rw [ih]
        simp only [co2Sum, waterSum,
          usedSum_cons_used (fun x => x.co2) e rest d hpos hm,
          usedSum_cons_used (fun x => x.water) e rest d hpos hm, Impact.mk.injEq]
        constructor <;> ring
      | none =>
        rw [show impactStep m a e = a by simp [impactStep, hpos, hm]]
        rw [ih]
        simp only [co2Sum, waterSum,
          usedSum_cons_unknown (fun x => x.co2) e rest hm,
          usedSum_cons_unknown (fun x => x.water) e rest hm]
    · rw [show impactStep m a e = a by simp [impactStep, hpos]]
      rw [ih]
      simp only [co2Sum, waterSum,
        usedSum_cons_nonpos (fun x => x.co2) e rest hpos,
        usedSum_cons_nonpos (fun x => x.water) e rest hpos]

/-- calculateImpact as a closed formula: per-kilogram sums times the mass. -/
theorem calculateImpact_eq (c : Composition) (m : ℚ) :
    calculateImpact c m = ⟨co2Sum c * m, waterSum c * m⟩ := by
  simp only [calculateImpact, foldl_impactStep, zero_add]

/-- A successful association-list lookup returns a stored pair. -/
theorem lookup_mem {β : Type} {l : List (String × β)} {s : String} {b : β}
    (h : l.lookup s = some b) : (s, b) ∈ l := by
  induction l with
  | nil => simp at h
  | cons e rest ih =>
    obtain ⟨k, v⟩ := e
    rw [List.lookup_cons] at h
    by_cases he : s = k
    · subst he
      simp only [beq_self_eq_true] at h
      obtain rfl : v = b := by
        simpa using h
      exact List.mem_cons_self _ _
    · rw [show (s == k) = false from beq_false_of_ne he] at h
      exact List.mem_cons_of_mem _ (ih h)

/-- Every category multiplier the code can produce is positive. -/
theorem categoryMult_pos (category : String) : 0 < categoryMult category := by
  unfold categoryMult
  cases h : CATEGORY_MULTIPLIERS.lookup category with
  | none => norm_num
  | some m =>
    have hm := lookup_mem h
    show (0:ℚ) < if m = 0 then 1 else m
    by_cases h0 : m = 0
    · simp [h0]
    · rw [if_neg h0]
      simp only [CATEGORY_MULTIPLIERS] at hm
      fin_cases hm <;> norm_num

/-- Every row of the material table has non-negative impact coefficients. -/
theorem materialLookup_nonneg (s : String) (d : MaterialInfo)
    (h : materialLookup s = some d) : 0 ≤ d.co2 ∧ 0 ≤ d.water := by
  have hm := lookup_mem h
  simp only [materialLookup, MATERIAL_DATA] at hm
  fin_cases hm <;> norm_num

/-- The per-kilogram CO2 sum over used entries is non-negative. -/
theorem co2Sum_nonneg (c : Composition) : 0 ≤ co2Sum c := by
  simp only [co2Sum]
  induction c with
  | nil => simp [usedSum]
  | cons e rest ih =>
    by_cases hpos : e.2 > 0
    · cases hm : materialLookup e.1 with
      | some d =>
        rw [usedSum_cons_used (fun x => x.co2) e rest d hpos hm]
        have hd := (materialLookup_nonneg e.1 d hm).1
        have : 0 ≤ d.co2 * e.2 := mul_nonneg hd (le_of_lt hpos)
        linarith
      | none => rw [usedSum_cons_unknown (fun x => x.co2) e rest hm]; exact ih
    · rw [usedSum_cons_nonpos (fun x => x.co2) e rest hpos]; exact ih

/-- The per-kilogram water sum over used entries is non-negative. -/
theorem waterSum_nonneg (c : Composition) : 0 ≤ waterSum c := by
  simp only [waterSum]
  induction c with
  | nil => simp [usedSum]
  | cons e rest ih =>
    by_cases hpos : e.2 > 0
    · cases hm : materialLookup e.1 with
      | some d =>
        rw [usedSum_cons_used (fun x => x.water) e rest d hpos hm]
        have hd := (materialLookup_nonneg e.1 d hm).2
        have : 0 ≤ d.water * e.2 := mul_nonneg hd (le_of_lt hpos)
        linarith
      | none => rw [usedSum_cons_unknown (fun x => x.water) e rest hm]; exact ih
    · rw [usedSum_cons_nonpos (fun x => x.water) e rest hpos]; exact ih

/-- Replacing a present key in place: the lookup of that key sees the new
value. -/
theorem lookup_map_replace_self (c : Composition) (k : String) (v : ℚ)
    (hk : k ∈ c.map Prod.fst) :
    (c.map (fun e => if e.1 = k then (k, v) else e)).lookup k = some v := by
  induction c with
  | nil => simp at hk
  | cons e rest ih =>
    rw [List.map_cons] at hk
    rw [List.map_cons]
    by_cases he : e.1 = k
    · rw [if_pos he]
      exact List.lookup_cons_self
    · rw [if_neg he]
      have hk2 : k ∈ rest.map Prod.fst := by
        rcases List.mem_cons.mp hk with h1 | h1
        · exact absurd h1.symm he
        · exact h1
      obtain ⟨k1, v1⟩ := e
      rw [List.lookup_cons]
      rw [show (k == k1) = false from beq_false_of_ne (fun hh => he hh.symm)]
      exact ih hk2

/-- Replacing a key in place leaves lookups of other keys unchanged. -/
theorem lookup_map_replace_ne (c : Composition) (k : String) (v : ℚ)
    (k2 : String) (hne : k2 ≠ k) :
    (c.map (fun e => if e.1 = k then (k, v) else e)).lookup k2 = c.lookup k2 := by
  induction c with
  | nil => simp
  | cons e rest ih =>
    obtain ⟨k1, v1⟩ := e
    rw [List.map_cons]
    by_cases he : (k1, v1).1 = k
    · rw [if_pos he]
      simp only at he
      rw [List.lookup_cons, List.lookup_cons,
        show (k2 == k) = false from beq_false_of_ne hne,
        show (k2 == k1) = false from beq_false_of_ne (by rw [he]; exact hne)]
      exact ih
    · rw [if_neg he]
      rw [List.lookup_cons, List.lookup_cons]
      cases hbe : (k2 == k1) with
      | true => rfl
      | false => exact ih

/-- Appending a fresh key: the lookup of that key sees the appended value. -/
theorem lookup_append_self (c : Composition) (k : String) (v : ℚ)
    (hk : k ∉ c.map Prod.fst) :
    (c ++ [(k, v)]).lookup k = some v := by
  induction c with
  | nil => simp
  | cons e rest ih =>
    obtain ⟨k1, v1⟩ := e
    have hne : k ≠ k1 := by
      intro hh
      exact hk (by simp [hh])
    rw [List.cons_append, List.lookup_cons,
      show (k == k1) = false from beq_false_of_ne hne]
    exact ih (fun hh => hk (by simp [List.map_cons]; right; simpa using hh))

/-- Appending a key leaves lookups of other keys unchanged. -/
theorem lookup_append_ne (c : Composition) (k : String) (v : ℚ)
    (k2 : String) (hne : k2 ≠ k) :
    (c ++ [(k, v)]).lookup k2 = c.lookup k2 := by
  induction c with
  | nil =>
    simp [List.lookup, show (k2 == k) = false from beq_false_of_ne hne]
  | cons e rest ih =>
    obtain ⟨k1, v1⟩ := e
    rw [List.cons_append, List.lookup_cons, List.lookup_cons]
    cases hbe : (k2 == k1) with
    | true => rfl
    | false => exact ih

/-- The lookup of a key just written by setKey sees the written value. -/
theorem lookup_setKey_self (c : Composition) (k : String) (v : ℚ) :
    (setKey c k v).lookup k = some v := by
  unfold setKey
  by_cases hc : (c.map Prod.fst).contains k
  · rw [if_pos hc]
    exact lookup_map_replace_self c k v (by simpa using hc)
  · rw [if_neg hc]
    exact lookup_append_self c k v (by simpa using hc)

/-- setKey leaves lookups of other keys unchanged. -/
theorem lookup_setKey_ne (c : Composition) (k : String) (v : ℚ)
    (k2 : String) (hne : k2 ≠ k) :
    (setKey c k v).lookup k2 = c.lookup k2 := by
  unfold setKey
  by_cases hc : (c.map Prod.fst).contains k
  · rw [if_pos hc]
    exact lookup_map_replace_ne c k v k2 hne
  · rw [if_neg hc]
    exact lookup_append_ne c k v k2 hne

/-- Scaling every fraction by a positive scalar scales every used sum. -/
theorem usedSum_scaleComp (f : MaterialInfo → ℚ) (c : Composition) (k : ℚ)
    (hk : 0 < k) : usedSum f (scaleComp c k) = usedSum f c * k := by
  induction c with
  | nil => simp [scaleComp, usedSum]
  | cons e rest ih =>
    rw [show scaleComp (e :: rest) k = (e.1, e.2 * k) :: scaleComp rest k from rfl]
    by_cases hpos : e.2 > 0
    · have hpos2 : ((e.1, e.2 * k) : String × ℚ).2 > 0 := mul_pos hpos hk
      cases hm : materialLookup e.1 with
      | some d =>
        rw [usedSum_cons_used f (e.1, e.2 * k) (scaleComp rest k) d hpos2 hm, ih,
          usedSum_cons_used f e rest d hpos hm]
        ring
      | none =>
        rw [usedSum_cons_unknown f (e.1, e.2 * k) (scaleComp rest k) hm, ih,
          usedSum_cons_unknown f e rest hm]
    · have hle : e.2 * k ≤ 0 := by nlinarith [not_lt.mp hpos]
      have hpos2 : ¬ ((e.1, e.2 * k) : String × ℚ).2 > 0 := by
        simpa using not_lt.mpr hle
      rw [usedSum_cons_nonpos f (e.1, e.2 * k) (scaleComp rest k) hpos2, ih,
        usedSum_cons_nonpos f e rest hpos]

/-- Field consistency of the record pushed by heuristic (a): the stored
deltas are the stored absolute values minus the current ones. -/
theorem suggestion1_fields {base : Composition} {category : String} {L : ℚ}
    {I : Impact} {r : Recommendation}
    (h : suggestion1 base category L I = some r) :
    r.deltaLifespan = r.lifespan - L ∧ r.deltaCO2 = r.impact.co2 - I.co2 := by
  cases hl : base.lookup "polyester" with
  | none =>
    simp only [suggestion1, hl] at h
    exact absurd h (by simp)
  | some p =>
    simp only [suggestion1, hl] at h
    by_cases hp : p > 1/10
    · rw [if_pos hp] at h
      obtain rfl := Option.some.inj h
      exact ⟨rfl, rfl⟩
    · rw [if_neg hp] at h
      exact absurd h (by simp)

/-- Field consistency of the record pushed by heuristic (b). -/
theorem suggestion2_fields {base : Composition} {category : String} {L : ℚ}
    {I : Impact} {r : Recommendation}
    (h : suggestion2 base category L I = some r) :
    r.deltaLifespan = r.lifespan - L ∧ r.deltaCO2 = r.impact.co2 - I.co2 := by
  cases hl : base.lookup "cotton" with
  | none =>
    simp only [suggestion2, hl] at h
    exact absurd h (by simp)
  | some cv =>
    simp only [suggestion2, hl] at h
    by_cases hp : cv > 1/2
    · rw [if_pos hp] at h
      obtain rfl := Option.some.inj h
      exact ⟨rfl, rfl⟩
    · rw [if_neg hp] at h
      exact absurd h (by simp)

/-- Field consistency of the record pushed by heuristic (c). -/
theorem suggestion3_fields {base : Composition} {category : String} {L : ℚ}
    {I : Impact} {r : Recommendation}
    (h : suggestion3 base category L I = some r) :
    r.deltaLifespan = r.lifespan - L ∧ r.deltaCO2 = r.impact.co2 - I.co2 := by
  cases hl : base.lookup "polyester" with
  | none =>
    simp only [suggestion3, hl] at h
    exact absurd h (by simp)
  | some p =>
    cases hc : base.lookup "cotton" with
    | none =>
      simp only [suggestion3, hl, hc] at h
      exact absurd h (by simp)
    | some cv =>
      simp only [suggestion3, hl, hc] at h
      by_cases hp : p > 3/10 ∧ cv < 1/2
      · rw [if_pos hp] at h
        obtain rfl := Option.some.inj h
        exact ⟨rfl, rfl⟩
      · rw [if_neg hp] at h
        exact absurd h (by simp)

/-- Field consistency of the record pushed by heuristic (d). -/
theorem suggestion4_fields {base : Composition} {category : String} {L : ℚ}
    {I : Impact} {r : Recommendation}
    (h : suggestion4 base category L I = some r) :
    r.deltaLifespan = r.lifespan - L ∧ r.deltaCO2 = r.impact.co2 - I.co2 := by
  by_cases hcat : category = "tshirt" ∨ category = "dress"
  · cases hl : base.lookup "polyester" with
    | none =>
      simp only [suggestion4, if_pos hcat, hl] at h
      exact absurd h (by simp)
    | some p =>
      simp only [suggestion4, if_pos hcat, hl] at h
      by_cases hp : p > 1/5
      · rw [if_pos hp] at h
        obtain rfl := Option.some.inj h
        exact ⟨rfl, rfl⟩
      · rw [if_neg hp] at h
        exact absurd h (by simp)
  · simp only [suggestion4, if_neg hcat] at h
    exact absurd h (by simp)

/-- Every element of the improvements array satisfies the stored-delta
consistency of its originating heuristic. -/
theorem improvements_fields {base : Composition} {category : String}
    {r : Recommendation} (h : r ∈ improvements base category) :
    r.deltaLifespan = r.lifespan - predictLifespan base category ∧
      r.deltaCO2 = r.impact.co2 - (calculateImpact base (1/4)).co2 := by
  simp only [improvements, List.mem_append] at h
  rcases h with ((h | h) | h) | h
  all_goals rw [Option.mem_toList, Option.mem_def] at h
  · exact suggestion1_fields h
  · exact suggestion2_fields h
  · exact suggestion3_fields h
  · exact suggestion4_fields h

/-- Membership in the sorted suggestions list coincides with membership in
the improvements array. -/
theorem mem_suggestions {base : Composition} {category : String}
    {r : Recommendation} :
    r ∈ suggestions base category ↔ r ∈ improvements base category :=
  (List.perm_insertionSort (fun a b => rank b ≤ rank a)
    (improvements base category)).mem_iff

/-- clamp01 produces non-negative values. -/
theorem clamp01_nonneg (x : ℚ) : 0 ≤ clamp01 x := le_max_left 0 _

/-- clamp01 produces values of at most 1. -/
theorem clamp01_le_one (x : ℚ) : clamp01 x ≤ 1 :=
  max_le (by norm_num) (min_le_left 1 x)

/-- clamp01 fixes values already in the unit interval. -/
theorem clamp01_eq_self {x : ℚ} (h0 : 0 ≤ x) (h1 : x ≤ 1) : clamp01 x = x := by
  unfold clamp01
  rw [min_eq_right h1, max_eq_right h0]

/-- clamp01 is idempotent. -/
theorem clamp01_idem (x : ℚ) : clamp01 (clamp01 x) = clamp01 x :=
  clamp01_eq_self (clamp01_nonneg x) (clamp01_le_one x)

/-- Every entry of a clamped composition lies in the unit interval. -/
theorem mem_clampComp (c : Composition) :
    ∀ e ∈ clampComp c, 0 ≤ e.2 ∧ e.2 ≤ 1 := by
  intro e he
  obtain ⟨a, _, rfl⟩ := List.mem_map.mp he
  exact ⟨clamp01_nonneg a.2, clamp01_le_one a.2⟩

/-- Clamping twice is clamping once. -/
theorem clampComp_clampComp (c : Composition) :
    clampComp (clampComp c) = clampComp c := by
  unfold clampComp
  rw [List.map_map]
  simp [Function.comp_def, clamp01_idem]

/-- Clamping fixes a composition whose entries lie in the unit interval. -/
theorem clampComp_eq_self (c : Composition)
    (h : ∀ e ∈ c, 0 ≤ e.2 ∧ e.2 ≤ 1) : clampComp c = c := by
  unfold clampComp
  induction c with
  | nil => simp
  | cons e rest ih =>
    rw [List.map_cons]
    obtain ⟨k, x⟩ := e
    have hx := h (k, x) (List.mem_cons_self _ _)
    rw [ih (fun a ha => h a (List.mem_cons_of_mem _ ha))]
    simp only at hx
    rw [clamp01_eq_self hx.1 hx.2]

/-- The fraction sum of a composition with non-negative entries is
non-negative. -/
theorem fracSum_nonneg (c : Composition) (h : ∀ e ∈ c, 0 ≤ e.2) :
    0 ≤ fracSum c := by
  unfold fracSum
  apply List.sum_nonneg
  intro x hx
  obtain ⟨a, ha, rfl⟩ := List.mem_map.mp hx
  exact h a ha

/-- With non-negative entries, each entry is at most the fraction sum. -/
theorem single_le_fracSum (c : Composition) (h : ∀ e ∈ c, 0 ≤ e.2)
    (e : String × ℚ) (he : e ∈ c) : e.2 ≤ fracSum c := by
  unfold fracSum
  apply List.single_le_sum
  · intro x hx
    obtain ⟨a, ha, rfl⟩ := List.mem_map.mp hx
    exact h a ha
  · exact List.mem_map.mpr ⟨e, he, rfl⟩

/-- Rescaling every fraction rescales the fraction sum. -/
theorem fracSum_map_mul (c : Composition) (t : ℚ) :
    fracSum (c.map (fun e => (e.1, e.2 * t))) = fracSum c * t := by
  unfold fracSum
  rw [List.map_map]
  simp only [Function.comp_def]
  exact List.sum_map_mul_right c (fun e => e.2) t

/-- normalize written without let bindings. -/
theorem normalize_def (c : Composition) :
    normalize c =
      if fracSum (clampComp c) = 0 then c
      else if fracSum (clampComp c) ≠ 1 then
        (clampComp c).map (fun e => (e.1, e.2 * (1 / fracSum (clampComp c))))
      else clampComp c := rfl

/-- A used sum over a composition all of whose entries are skipped (zero
fraction or unknown material) vanishes. -/
theorem usedSum_eq_zero_of_skip (f : MaterialInfo → ℚ) (c : Composition) :
    (∀ e ∈ c, e.2 = 0 ∨ materialLookup e.1 = none) → usedSum f c = 0 := by
  induction c with
  | nil => intro _; simp [usedSum]
  | cons e rest ih =>
    intro h
    have hrest := ih (fun a ha => h a (List.mem_cons_of_mem _ ha))
    rcases h e (List.mem_cons_self _ _) with h1 | h1
    · rw [usedSum_cons_nonpos f e rest (by simp [h1]), hrest]
    · rw [usedSum_cons_unknown f e rest h1, hrest]

/-- C1: for every composition (any finite mapping of material names to
rational fractions) and every category string, the predicted lifespan lies
between 15 and 63 months times the category multiplier, because the
material score is clamped to [0.4, 1.2] before the lifespan formula
30 + (S - 0.65) * 60 is applied. -/
theorem claim1_lifespan_bounds (c : Composition) (k : String) :
    15 * categoryMult k ≤ predictLifespan c k ∧
      predictLifespan c k ≤ 63 * categoryMult k := by
  have hS1 : 2/5 ≤ calculateMaterialScore c := by
    rw [calculateMaterialScore_eq]
    exact le_max_left _ _
  have hS2 : calculateMaterialScore c ≤ 6/5 := by
    rw [calculateMaterialScore_eq]
    exact max_le (by norm_num) (min_le_left _ _)
  have hM : 0 < categoryMult k := categoryMult_pos k
  have hbase1 : (15:ℚ) ≤ 30 + (calculateMaterialScore c - 13/20) * 60 := by
    linarith
  have hbase2 : 30 + (calculateMaterialScore c - 13/20) * 60 ≤ 63 := by
    linarith
  simp only [predictLifespan]
  exact ⟨mul_le_mul_of_nonneg_right hbase1 hM.le,
    mul_le_mul_of_nonneg_right hbase2 hM.le⟩

/-- C2: a composition that is empty or all of whose entries carry fraction
zero or an unknown material name yields the baseline lifespan 30 times the
category multiplier (30 for the tshirt category) and zero impact for every
mass; nothing throws, the functions being total. -/
theorem claim2_zero_weight (c : Composition) (k : String) (m : ℚ)
    (h : ∀ e ∈ c, e.2 = 0 ∨ materialLookup e.1 = none) :
    predictLifespan c k = 30 * categoryMult k ∧
      predictLifespan c "tshirt" = 30 ∧
      calculateImpact c m = ⟨0, 0⟩ := by
  have hp : pctSum c = 0 := by
    simp only [pctSum]
    exact usedSum_eq_zero_of_skip _ c h
  have hscore : calculateMaterialScore c = 13/20 := by
    rw [calculateMaterialScore_eq, hp]
    norm_num [min_def, max_def]
  have hco2 : co2Sum c = 0 := by
    simp only [co2Sum]
    exact usedSum_eq_zero_of_skip _ c h
  have hwater : waterSum c = 0 := by
    simp only [waterSum]
    exact usedSum_eq_zero_of_skip _ c h
  have htshirt : categoryMult "tshirt" = 1 := by
    norm_num [categoryMult, CATEGORY_MULTIPLIERS, List.lookup]
  refine ⟨?_, ?_, ?_⟩
  · simp only [predictLifespan, hscore]
    norm_num
  · simp only [predictLifespan, hscore, htshirt]
    norm_num
  · rw [calculateImpact_eq, hco2, hwater]
    norm_num

/-- Witness for C2 at the concrete composition with a zero cotton entry and
an unknown material entry. -/
theorem claim2_witness :
    (∀ e ∈ ([("cotton", 0), ("vibranium", 1/2)] : Composition),
        e.2 = 0 ∨ materialLookup e.1 = none) ∧
      (predictLifespan [("cotton", 0), ("vibranium", 1/2)] "jeans" =
          30 * categoryMult "jeans" ∧
        predictLifespan [("cotton", 0), ("vibranium", 1/2)] "tshirt" = 30 ∧
        calculateImpact [("cotton", 0), ("vibranium", 1/2)] 7 = ⟨0, 0⟩) := by
  have hyp : ∀ e ∈ ([("cotton", 0), ("vibranium", 1/2)] : Composition),
      e.2 = 0 ∨ materialLookup e.1 = none := by
    intro e he
    rcases List.mem_cons.mp he with rfl | he2
    · left; rfl
    · rcases List.mem_cons.mp he2 with rfl | he3
      · right
        decide
      · simp at he3
  exact ⟨hyp, claim2_zero_weight _ "jeans" 7 hyp⟩

/-- C6: the predicted lifespan is invariant under uniform positive scaling
of the composition (with every scaled fraction staying at most 1), because
the accumulated deviation is divided by the used-fraction total. -/
theorem claim6_scaling_invariance (c : Composition) (category : String)
    (k : ℚ) (hk : 0 < k) (hbound : ∀ e ∈ c, e.2 * k ≤ 1) :
    predictLifespan (scaleComp c k) category = predictLifespan c category := by
  have hdev : devSum (scaleComp c k) = devSum c * k := by
    simp only [devSum]
    exact usedSum_scaleComp _ c k hk
  have hpct : pctSum (scaleComp c k) = pctSum c * k := by
    simp only [pctSum]
    exact usedSum_scaleComp _ c k hk
  have hscore :
      calculateMaterialScore (scaleComp c k) = calculateMaterialScore c := by
    rw [calculateMaterialScore_eq, calculateMaterialScore_eq, hdev, hpct]
    by_cases hpos : 0 < pctSum c
    · rw [if_pos hpos, if_pos (mul_pos hpos hk),
        mul_div_mul_right _ _ (ne_of_gt hk)]
    · have hz : pctSum c = 0 :=
        le_antisymm (not_lt.mp hpos) (pctSum_nonneg c)
      rw [if_neg hpos, if_neg (by rw [hz, zero_mul]; exact lt_irrefl 0)]
  simp only [predictLifespan, hscore]

/-- Witness for C6: doubling a half-cotton composition leaves the
prediction unchanged. -/
theorem claim6_witness :
    (0:ℚ) < 2 ∧
      (∀ e ∈ ([("cotton", 1/2)] : Composition), e.2 * 2 ≤ 1) ∧
      predictLifespan (scaleComp [("cotton", 1/2)] 2) "dress" =
        predictLifespan [("cotton", 1/2)] "dress" := by
  have hb : ∀ e ∈ ([("cotton", 1/2)] : Composition), e.2 * 2 ≤ 1 := by
    intro e he
    rcases List.mem_cons.mp he with rfl | h2
    · norm_num
    · simp at h2
  exact ⟨by norm_num, hb,
    claim6_scaling_invariance _ "dress" 2 (by norm_num) hb⟩

/-- C7: impact scales linearly with the garment mass; no renormalization of
fractions happens in the impact calculation. -/
theorem claim7_impact_mass_linear (c : Composition) (m : ℚ) (hm : 0 < m) :
    (calculateImpact c (2 * m)).co2 = 2 * (calculateImpact c m).co2 ∧
      (calculateImpact c (2 * m)).water = 2 * (calculateImpact c m).water := by
  rw [calculateImpact_eq, calculateImpact_eq]
  constructor <;> simp <;> ring

/-- Witness for C7 at pure cotton and mass 1. -/
theorem claim7_witness :
    (0:ℚ) < 1 ∧
      ((calculateImpact [("cotton", 1)] (2 * 1)).co2 =
          2 * (calculateImpact [("cotton", 1)] 1).co2 ∧
        (calculateImpact [("cotton", 1)] (2 * 1)).water =
          2 * (calculateImpact [("cotton", 1)] 1).water) :=
  ⟨by norm_num, claim7_impact_mass_linear [("cotton", 1)] 1 (by norm_num)⟩

/-- C10: for every finite composition mapping with arbitrary rational
fractions (negative ones included) and every non-negative mass, the
computed impact is non-negative in both components, because non-positive
or unknown entries are skipped and the table coefficients are
non-negative. -/
theorem claim10_impact_nonneg (c : Composition) (m : ℚ) (hm : 0 ≤ m) :
    0 ≤ (calculateImpact c m).co2 ∧ 0 ≤ (calculateImpact c m).water := by
  rw [calculateImpact_eq]
  exact ⟨mul_nonneg (co2Sum_nonneg c) hm, mul_nonneg (waterSum_nonneg c) hm⟩

/-- Witness for C10 at a composition with a negative cotton fraction. -/
theorem claim10_witness :
    (0:ℚ) ≤ 1/4 ∧
      (0 ≤ (calculateImpact [("cotton", -1), ("wool", 1/2)] (1/4)).co2 ∧
        0 ≤ (calculateImpact [("cotton", -1), ("wool", 1/2)] (1/4)).water) :=
  ⟨by norm_num, claim10_impact_nonneg [("cotton", -1), ("wool", 1/2)] (1/4)
    (by norm_num)⟩

/-- C9: the composition normalizer is idempotent. -/
theorem claim9_normalize_idempotent (c : Composition) :
    normalize (normalize c) = normalize c := by
  by_cases h0 : fracSum (clampComp c) = 0
  · have hc : normalize c = c := by rw [normalize_def, if_pos h0]
    rw [hc, hc]
  · by_cases h1 : fracSum (clampComp c) = 1
    · have hout : normalize c = clampComp c := by
        rw [normalize_def, if_neg h0, h1]
        simp
      rw [hout, normalize_def, clampComp_clampComp, h1]
      norm_num
    · have hnn : ∀ e ∈ clampComp c, 0 ≤ e.2 :=
        fun e he => (mem_clampComp c e he).1
      have hpos : 0 < fracSum (clampComp c) :=
        lt_of_le_of_ne (fracSum_nonneg _ hnn) (Ne.symm h0)
      have hout : normalize c =
          (clampComp c).map (fun e => (e.1, e.2 * (1 / fracSum (clampComp c)))) := by
        rw [normalize_def, if_neg h0, if_pos h1]
      have hr : ∀ e ∈ (clampComp c).map
          (fun e => (e.1, e.2 * (1 / fracSum (clampComp c)))),
          0 ≤ e.2 ∧ e.2 ≤ 1 := by
        intro e he
        obtain ⟨a, ha, rfl⟩ := List.mem_map.mp he
        refine ⟨mul_nonneg (hnn a ha) (one_div_nonneg.mpr hpos.le), ?_⟩
        show a.2 * (1 / fracSum (clampComp c)) ≤ 1
        rw [mul_one_div]
        exact (div_le_one hpos).mpr (single_le_fracSum _ hnn a ha)
      have hclamp : clampComp ((clampComp c).map
          (fun e => (e.1, e.2 * (1 / fracSum (clampComp c))))) =
          (clampComp c).map (fun e => (e.1, e.2 * (1 / fracSum (clampComp c)))) :=
        clampComp_eq_self _ hr
      have hsum : fracSum ((clampComp c).map
          (fun e => (e.1, e.2 * (1 / fracSum (clampComp c))))) = 1 := by
        rw [fracSum_map_mul, mul_one_div, div_self (ne_of_gt hpos)]
      rw [hout, normalize_def, hclamp, hsum]
      norm_num

/-- Label and composition of the record produced by heuristic (a). -/
theorem suggestion1_some {base : Composition} {category : String} {L : ℚ}
    {I : Impact} {r : Recommendation} {p : ℚ}
    (hp : base.lookup "polyester" = some p)
    (h : suggestion1 base category L I = some r) :
    r.label = "Switch to Recycled Polyester" ∧
      r.composition = setKey (setKey base "recycled_polyester" p) "polyester" 0 := by
  simp only [suggestion1, hp] at h
  by_cases hgt : p > 1/10
  · rw [if_pos hgt] at h
    obtain rfl := Option.some.inj h
    exact ⟨rfl, rfl⟩
  · rw [if_neg hgt] at h
    exact absurd h (by simp)

/-- Label and composition of the record produced by heuristic (c). -/
theorem suggestion3_some {base : Composition} {category : String} {L : ℚ}
    {I : Impact} {r : Recommendation} {p cv : ℚ}
    (hp : base.lookup "polyester" = some p)
    (hc : base.lookup "cotton" = some cv)
    (h : suggestion3 base category L I = some r) :
    r.label = "Replace Polyester with Cotton" ∧
      r.composition = setKey (setKey base "polyester" (p - min (3/10) p))
        "cotton" (cv + min (3/10) p) := by
  simp only [suggestion3, hp, hc] at h
  by_cases hgt : p > 3/10 ∧ cv < 1/2
  · rw [if_pos hgt] at h
    obtain rfl := Option.some.inj h
    exact ⟨rfl, rfl⟩
  · rw [if_neg hgt] at h
    exact absurd h (by simp)

/-- C5: the recommendation sequence has length at most 4, every adjacent
pair is ordered by descending composite score deltaLifespan - deltaCO2 * 50,
and the all-wool sweater composition yields the empty sequence as a normal
outcome. -/
theorem claim5_ranked_output (base : Composition) (category : String) :
    (suggestions base category).length ≤ 4 ∧
      List.Chain' (fun r1 r2 =>
        r2.deltaLifespan - r2.deltaCO2 * 50 ≤
          r1.deltaLifespan - r1.deltaCO2 * 50)
        (suggestions base category) ∧
      suggestions [("wool", 1)] "sweater" = [] := by
  refine ⟨?_, ?_, ?_⟩
  · simp only [suggestions]
    rw [List.length_insertionSort]
    simp only [improvements, List.length_append]
    have l1 : ∀ (o : Option Recommendation), o.toList.length ≤ 1 := by
      intro o
      cases o <;> simp
    have h1 := l1 (suggestion1 base category (predictLifespan base category)
      (calculateImpact base (1/4)))
    have h2 := l1 (suggestion2 base category (predictLifespan base category)
      (calculateImpact base (1/4)))
    have h3 := l1 (suggestion3 base category (predictLifespan base category)
      (calculateImpact base (1/4)))
    have h4 := l1 (suggestion4 base category (predictLifespan base category)
      (calculateImpact base (1/4)))
    omega
  · haveI : IsTrans Recommendation (fun r1 r2 =>
        r2.deltaLifespan - r2.deltaCO2 * 50 ≤
          r1.deltaLifespan - r1.deltaCO2 * 50) :=
      ⟨fun _ _ _ h1 h2 => le_trans h2 h1⟩
    haveI : IsTotal Recommendation (fun a b => rank b ≤ rank a) :=
      ⟨fun a b => le_total (rank b) (rank a)⟩
    haveI : IsTrans Recommendation (fun a b => rank b ≤ rank a) :=
      ⟨fun _ _ _ h1 h2 => le_trans h2 h1⟩
    have hs : List.Sorted (fun a b => rank b ≤ rank a)
        (suggestions base category) := by
      simp only [suggestions]
      exact List.sorted_insertionSort _ _
    have hp : List.Pairwise (fun r1 r2 =>
        r2.deltaLifespan - r2.deltaCO2 * 50 ≤
          r1.deltaLifespan - r1.deltaCO2 * 50)
        (suggestions base category) := hs
    exact List.chain'_iff_pairwise.mpr hp
  · norm_num [suggestions, improvements, suggestion1, suggestion2,
      suggestion3, suggestion4, List.lookup]

/-- C3 counterexample: with polyester 0.5 and a pre-existing
recycled_polyester fraction 0.2, the claim asks for a candidate carrying
recycled_polyester 0.7 = 0.5 + 0.2; the code overwrites instead of adding
and produces 0.5, so no such candidate exists. -/
theorem claim3_counterexample :
    ¬ ∃ r ∈ suggestions [("polyester", 1/2), ("recycled_polyester", 1/5)]
        "sweater",
        r.label = "Switch to Recycled Polyester" ∧
        r.composition.lookup "recycled_polyester" = some (7/10) := by
  rintro ⟨r, hr, -, hcomp⟩
  have hr2 := mem_suggestions.mp hr
  simp only [improvements, List.mem_append] at hr2
  have hp : ([("polyester", 1/2), ("recycled_polyester", 1/5)] :
      Composition).lookup "polyester" = some (1/2) := by
    simp [List.lookup]
  rcases hr2 with ((h | h) | h) | h <;>
    rw [Option.mem_toList, Option.mem_def] at h
  · have hc := (suggestion1_some hp h).2
    rw [hc, lookup_setKey_ne _ _ _ _ (by decide), lookup_setKey_self] at hcomp
    rw [Option.some.injEq] at hcomp
    norm_num at hcomp
  · simp [suggestion2, List.lookup] at h
  · simp [suggestion3, List.lookup] at h
  · simp [suggestion4] at h

/-- C3 (amended): whenever the polyester fraction exceeds 0.1, the output
contains the recycled-polyester candidate; its recycled_polyester fraction
equals the input polyester fraction (overwriting, not adding to, any
pre-existing recycled_polyester fraction) and its polyester fraction is 0. -/
theorem claim3_recycled_polyester (base : Composition) (category : String)
    (p : ℚ) (hp : base.lookup "polyester" = some p) (hgt : p > 1/10) :
    ∃ r ∈ suggestions base category,
      r.label = "Switch to Recycled Polyester" ∧
      r.composition.lookup "recycled_polyester" = some p ∧
      r.composition.lookup "polyester" = some 0 := by
  have hs1 : suggestion1 base category (predictLifespan base category)
      (calculateImpact base (1/4)) =
      some ⟨"Switch to Recycled Polyester",
        setKey (setKey base "recycled_polyester" p) "polyester" 0,
        predictLifespan
          (setKey (setKey base "recycled_polyester" p) "polyester" 0) category,
        predictLifespan
          (setKey (setKey base "recycled_polyester" p) "polyester" 0) category -
          predictLifespan base category,
        calculateImpact
          (setKey (setKey base "recycled_polyester" p) "polyester" 0) (1/4),
        (calculateImpact
          (setKey (setKey base "recycled_polyester" p) "polyester" 0) (1/4)).co2 -
          (calculateImpact base (1/4)).co2⟩ := by
    simp only [suggestion1, hp, if_pos hgt]
  refine ⟨⟨"Switch to Recycled Polyester",
      setKey (setKey base "recycled_polyester" p) "polyester" 0,
      predictLifespan
        (setKey (setKey base "recycled_polyester" p) "polyester" 0) category,
      predictLifespan
        (setKey (setKey base "recycled_polyester" p) "polyester" 0) category -
        predictLifespan base category,
      calculateImpact
        (setKey (setKey base "recycled_polyester" p) "polyester" 0) (1/4),
      (calculateImpact
        (setKey (setKey base "recycled_polyester" p) "polyester" 0) (1/4)).co2 -
        (calculateImpact base (1/4)).co2⟩,
    mem_suggestions.mpr ?_, rfl, ?_, ?_⟩
  · simp only [improvements, hs1]
    simp
  · show (setKey (setKey base "recycled_polyester" p) "polyester" 0).lookup
      "recycled_polyester" = some p
    rw [lookup_setKey_ne _ _ _ _ (by decide), lookup_setKey_self]
  · exact lookup_setKey_self _ _ _

/-- Witness for the amended C3: pure polyester in the jacket category. -/
theorem claim3_witness :
    ([("polyester", 1)] : Composition).lookup "polyester" = some 1 ∧
      (1:ℚ) > 1/10 ∧
      ∃ r ∈ suggestions [("polyester", 1)] "jacket",
        r.label = "Switch to Recycled Polyester" ∧
        r.composition.lookup "recycled_polyester" = some 1 ∧
        r.composition.lookup "polyester" = some 0 := by
  have h1 : ([("polyester", 1)] : Composition).lookup "polyester" = some 1 := by
    simp [List.lookup]
  exact ⟨h1, by norm_num,
    claim3_recycled_polyester _ "jacket" 1 h1 (by norm_num)⟩

/-- C4 counterexample: the composition with polyester 1 and no cotton entry
satisfies the claim precondition (absent cotton counting as 0 < 0.5), yet
no polyester-to-cotton candidate is produced, because the JavaScript
comparison undefined < 0.5 is false. -/
theorem claim4_counterexample :
    ¬ ∃ r ∈ suggestions [("polyester", 1)] "sweater",
        r.label = "Replace Polyester with Cotton" := by
  rintro ⟨r, hr, hlabel⟩
  have hr2 := mem_suggestions.mp hr
  simp only [improvements, List.mem_append] at hr2
  have hp : ([("polyester", 1)] : Composition).lookup "polyester" = some 1 := by
    simp [List.lookup]
  rcases hr2 with ((h | h) | h) | h <;>
    rw [Option.mem_toList, Option.mem_def] at h
  · have hl := (suggestion1_some hp h).1
    rw [hl] at hlabel
    exact absurd hlabel (by decide)
  · simp [suggestion2, List.lookup] at h
  · simp [suggestion3, List.lookup] at h
  · simp [suggestion4] at h

/-- C4 (amended): whenever the composition contains a polyester entry above
0.3 and a cotton entry below 0.5, the polyester-to-cotton candidate is
produced with min(0.3, polyester) moved from polyester to cotton; a
composition with no cotton entry does not trigger the heuristic. -/
theorem claim4_polyester_to_cotton (base : Composition) (category : String)
    (p cv : ℚ) (hp : base.lookup "polyester" = some p)
    (hc : base.lookup "cotton" = some cv)
    (hp3 : p > 3/10) (hc5 : cv < 1/2) :
    ∃ r ∈ suggestions base category,
      r.label = "Replace Polyester with Cotton" ∧
      r.composition.lookup "polyester" = some (p - min (3/10) p) ∧
      r.composition.lookup "cotton" = some (cv + min (3/10) p) := by
  have hs3 : suggestion3 base category (predictLifespan base category)
      (calculateImpact base (1/4)) =
      some ⟨"Replace Polyester with Cotton",
        setKey (setKey base "polyester" (p - min (3/10) p)) "cotton"
          (cv + min (3/10) p),
        predictLifespan (setKey (setKey base "polyester" (p - min (3/10) p))
          "cotton" (cv + min (3/10) p)) category,
        predictLifespan (setKey (setKey base "polyester" (p - min (3/10) p))
          "cotton" (cv + min (3/10) p)) category -
          predictLifespan base category,
        calculateImpact (setKey (setKey base "polyester" (p - min (3/10) p))
          "cotton" (cv + min (3/10) p)) (1/4),
        (calculateImpact (setKey (setKey base "polyester" (p - min (3/10) p))
          "cotton" (cv + min (3/10) p)) (1/4)).co2 -
          (calculateImpact base (1/4)).co2⟩ := by
    simp only [suggestion3, hp, hc, if_pos (And.intro hp3 hc5)]
  refine ⟨⟨"Replace Polyester with Cotton",
      setKey (setKey base "polyester" (p - min (3/10) p)) "cotton"
        (cv + min (3/10) p),
      predictLifespan (setKey (setKey base "polyester" (p - min (3/10) p))
        "cotton" (cv + min (3/10) p)) category,
      predictLifespan (setKey (setKey base "polyester" (p - min (3/10) p))
        "cotton" (cv + min (3/10) p)) category -
        predictLifespan base category,
      calculateImpact (setKey (setKey base "polyester" (p - min (3/10) p))
        "cotton" (cv + min (3/10) p)) (1/4),
      (calculateImpact (setKey (setKey base "polyester" (p - min (3/10) p))
        "cotton" (cv + min (3/10) p)) (1/4)).co2 -
        (calculateImpact base (1/4)).co2⟩,
    mem_suggestions.mpr ?_, rfl, ?_, ?_⟩
  · simp only [improvements, hs3]
    simp
  · show (setKey (setKey base "polyester" (p - min (3/10) p)) "cotton"
      (cv + min (3/10) p)).lookup "polyester" = some (p - min (3/10) p)
    rw [lookup_setKey_ne _ _ _ _ (by decide), lookup_setKey_self]
  · exact lookup_setKey_self _ _ _

/-- Witness for the amended C4: polyester 0.4 with cotton 0.1 in the jeans
category. -/
theorem claim4_witness :
    ([("polyester", 2/5), ("cotton", 1/10)] : Composition).lookup "polyester" =
        some (2/5) ∧
      ([("polyester", 2/5), ("cotton", 1/10)] : Composition).lookup "cotton" =
        some (1/10) ∧
      (2/5 : ℚ) > 3/10 ∧ (1/10 : ℚ) < 1/2 ∧
      ∃ r ∈ suggestions [("polyester", 2/5), ("cotton", 1/10)] "jeans",
        r.label = "Replace Polyester with Cotton" ∧
        r.composition.lookup "polyester" = some (2/5 - min (3/10) (2/5)) ∧
        r.composition.lookup "cotton" = some (1/10 + min (3/10) (2/5)) := by
  have h1 : ([("polyester", 2/5), ("cotton", 1/10)] : Composition).lookup
      "polyester" = some (2/5) := by
    simp [List.lookup]
  have h2 : ([("polyester", 2/5), ("cotton", 1/10)] : Composition).lookup
      "cotton" = some (1/10) := by
    simp [List.lookup]
  exact ⟨h1, h2, by norm_num, by norm_num,
    claim4_polyester_to_cotton _ "jeans" _ _ h1 h2 (by norm_num) (by norm_num)⟩

/-- C8 counterexample: the object literal pushed for every heuristic has no
deltaWater key; the water delta is recomputed by the UI from the impact
field. -/
theorem claim8_counterexample : "deltaWater" ∉ recommendationFieldNames := by
  decide

/-- C8 (amended): every produced Recommendation carries exactly the fields
label, composition, lifespan, deltaLifespan, impact and deltaCO2 (no
deltaWater field), and its stored deltas are consistent with its stored
absolute values against the current composition. -/
theorem claim8_recommendation_fields (base : Composition) (category : String)
    (r : Recommendation) (hr : r ∈ suggestions base category) :
    recommendationFieldNames =
        ["label", "composition", "lifespan", "deltaLifespan", "impact",
          "deltaCO2"] ∧
      "deltaWater" ∉ recommendationFieldNames ∧
      r.deltaLifespan = r.lifespan - predictLifespan base category ∧
      r.deltaCO2 = r.impact.co2 - (calculateImpact base (1/4)).co2 := by
  obtain ⟨hd, hc⟩ := improvements_fields (mem_suggestions.mp hr)
  exact ⟨rfl, by decide, hd, hc⟩

/-- Witness for the amended C8: the pure-cotton sweater produces exactly
the recycled-cotton candidate, with consistent stored deltas. -/
theorem claim8_witness :
    ((⟨"Use 80% Recycled Cotton", [("cotton", 1/5), ("recycled_cotton", 4/5)],
        621/10, 0, ⟨47/20, 235⟩, -7/5⟩ : Recommendation) ∈
        suggestions [("cotton", 1)] "sweater") ∧
      recommendationFieldNames =
        ["label", "composition", "lifespan", "deltaLifespan", "impact",
          "deltaCO2"] ∧
      "deltaWater" ∉ recommendationFieldNames ∧
      (0:ℚ) = 621/10 - predictLifespan [("cotton", 1)] "sweater" ∧
      (-7/5 : ℚ) = 47/20 - (calculateImpact [("cotton", 1)] (1/4)).co2 := by
  have hA : predictLifespan [("cotton", 1)] "sweater" = 621/10 := by
    norm_num [predictLifespan, calculateMaterialScore, List.foldl, scoreStep,
      materialLookup, MATERIAL_DATA, List.lookup, categoryMult,
      CATEGORY_MULTIPLIERS,
      show ("sweater" == "tshirt") = false from by decide]
  have hB : setKey (setKey [("cotton", (1:ℚ))] "recycled_cotton" (1 * (4/5)))
      "cotton" (1 * (1/5)) = [("cotton", 1/5), ("recycled_cotton", 4/5)] := by
    norm_num [setKey,
      show ("recycled_cotton" == "cotton") = false from by decide,
      show ("cotton" == "recycled_cotton") = false from by decide,
      show ¬("recycled_cotton" = "cotton") from by decide,
      show ¬("cotton" = "recycled_cotton") from by decide]
  have hC : predictLifespan [("cotton", 1/5), ("recycled_cotton", 4/5)]
      "sweater" = 621/10 := by
    norm_num [predictLifespan, calculateMaterialScore, List.foldl, scoreStep,
      materialLookup, MATERIAL_DATA, List.lookup, categoryMult,
      CATEGORY_MULTIPLIERS,
      show ("sweater" == "tshirt") = false from by decide,
      show ("recycled_cotton" == "cotton") = false from by decide]
  have hD : calculateImpact [("cotton", (1:ℚ))] (1/4) = ⟨15/4, 675⟩ := by
    norm_num [calculateImpact, List.foldl, impactStep, materialLookup,
      MATERIAL_DATA, List.lookup]
  have hE : calculateImpact [("cotton", 1/5), ("recycled_cotton", 4/5)]
      (1/4) = ⟨47/20, 235⟩ := by
    norm_num [calculateImpact, List.foldl, impactStep, materialLookup,
      MATERIAL_DATA, List.lookup,
      show ("recycled_cotton" == "cotton") = false from by decide]
  have hs2 : suggestion2 [("cotton", 1)] "sweater" (621/10) ⟨15/4, 675⟩ =
      some ⟨"Use 80% Recycled Cotton",
        [("cotton", 1/5), ("recycled_cotton", 4/5)],
        621/10, 0, ⟨47/20, 235⟩, -7/5⟩ := by
    simp only [suggestion2,
      show List.lookup "cotton" [("cotton", (1:ℚ))] = some 1 from by
        simp [List.lookup]]
    rw [if_pos (by norm_num)]
    rw [hB, hC, hE]
    norm_num
  have hs1 : suggestion1 [("cotton", 1)] "sweater" (621/10) ⟨15/4, 675⟩ =
      none := by
    simp [suggestion1, List.lookup,
      show ("polyester" == "cotton") = false from by decide]
  have hs3 : suggestion3 [("cotton", 1)] "sweater" (621/10) ⟨15/4, 675⟩ =
      none := by
    simp [suggestion3, List.lookup,
      show ("polyester" == "cotton") = false from by decide]
  have hs4 : suggestion4 [("cotton", 1)] "sweater" (621/10) ⟨15/4, 675⟩ =
      none := by
    simp [suggestion4,
      show ¬("sweater" = "tshirt") from by decide,
      show ¬("sweater" = "dress") from by decide]
  have hsug : suggestions [("cotton", 1)] "sweater" =
      [⟨"Use 80% Recycled Cotton",
        [("cotton", 1/5), ("recycled_cotton", 4/5)],
        621/10, 0, ⟨47/20, 235⟩, -7/5⟩] := by
    have himp : improvements [("cotton", 1)] "sweater" =
        [⟨"Use 80% Recycled Cotton",
          [("cotton", 1/5), ("recycled_cotton", 4/5)],
          621/10, 0, ⟨47/20, 235⟩, -7/5⟩] := by
      simp only [improvements, hA, hD, hs1, hs2, hs3, hs4]
      simp
    simp [suggestions, himp]
  have hmem : (⟨"Use 80% Recycled Cotton",
      [("cotton", 1/5), ("recycled_cotton", 4/5)],
      621/10, 0, ⟨47/20, 235⟩, -7/5⟩ : Recommendation) ∈
      suggestions [("cotton", 1)] "sweater" := by
    rw [hsug]
    exact List.mem_cons_self _ _
  have hcon := claim8_recommendation_fields _ _ _ hmem
  exact ⟨hmem, hcon.1, hcon.2.1, hcon.2.2.1, hcon.2.2.2⟩

end ThreadLife
